import Mathlib

/-!
Verification of the EVAONLINE climate/ETo pipeline core against its
natural-language specification.

Shallow embedding conventions:
* Calendar dates are modelled as integers counting days (an abstract epoch);
  `today` is always an explicit parameter, mirroring `datetime.now().date()`.
* Python `float` arithmetic is idealised as exact arithmetic: `ℚ` where the
  source only uses field operations and comparisons, `ℝ` where it uses
  transcendental functions (`math.exp`, `math.sin`, ...).
* Python's `round(x, n)` (round-half-to-even on the scaled value) is modelled
  by `pyRound` below.
* Python exceptions are modelled with `Except`/`Option`.
-/

/-- Round-half-to-even to an integer, the idealisation of Python's `round(x)`
on exact values: nearest integer, ties to the even integer. -/
def pyRoundInt {α : Type*} [LinearOrderedRing α] [FloorRing α] (x : α) : ℤ :=
  if 2 * Int.fract x < 1 then ⌊x⌋
  else if 1 < 2 * Int.fract x then ⌊x⌋ + 1
  else if Even ⌊x⌋ then ⌊x⌋ else ⌊x⌋ + 1

/-- Python's `round(x, n)`: round-half-to-even at `n` decimal places. -/
def pyRound {α : Type*} [LinearOrderedField α] [FloorRing α] (n : ℕ) (x : α) : α :=
  (pyRoundInt ((10 : α) ^ n * x) : α) / (10 : α) ^ n

theorem pyRoundInt_ge_floor {α : Type*} [LinearOrderedField α] [FloorRing α] (x : α) :
    ⌊x⌋ ≤ pyRoundInt x := by
  unfold pyRoundInt
  split_ifs <;> omega

theorem pyRoundInt_le_floor_add_one {α : Type*} [LinearOrderedField α] [FloorRing α] (x : α) :
    pyRoundInt x ≤ ⌊x⌋ + 1 := by
  unfold pyRoundInt
  split_ifs <;> omega

theorem pyRoundInt_mono {α : Type*} [LinearOrderedField α] [FloorRing α]
    {x y : α} (h : x ≤ y) : pyRoundInt x ≤ pyRoundInt y := by
  have hf : ⌊x⌋ ≤ ⌊y⌋ := Int.floor_le_floor h
  rcases lt_or_eq_of_le hf with hlt | heq
  · calc pyRoundInt x ≤ ⌊x⌋ + 1 := pyRoundInt_le_floor_add_one x
      _ ≤ ⌊y⌋ := by omega
      _ ≤ pyRoundInt y := pyRoundInt_ge_floor y
  · have hfr : Int.fract x ≤ Int.fract y := by
      unfold Int.fract
      rw [heq]
      linarith
    unfold pyRoundInt
    rw [heq] at *
    split_ifs <;> first | omega | linarith

theorem pyRound_mono {α : Type*} [LinearOrderedField α] [FloorRing α]
    (n : ℕ) {x y : α} (h : x ≤ y) : pyRound n x ≤ pyRound n y := by
  unfold pyRound
  have hp : (0 : α) < (10 : α) ^ n := by positivity
  have := pyRoundInt_mono (α := α) (mul_le_mul_of_nonneg_left h (le_of_lt hp))
  have hcast : ((pyRoundInt ((10 : α) ^ n * x) : ℤ) : α)
      ≤ ((pyRoundInt ((10 : α) ^ n * y) : ℤ) : α) := by exact_mod_cast this
  exact div_le_div_of_nonneg_right hcast hp.le

theorem pyRoundInt_zero {α : Type*} [LinearOrderedField α] [FloorRing α] :
    pyRoundInt (0 : α) = 0 := by
  unfold pyRoundInt
  norm_num

theorem pyRound_zero {α : Type*} [LinearOrderedField α] [FloorRing α] (n : ℕ) :
    pyRound n (0 : α) = 0 := by
  unfold pyRound
  rw [mul_zero, pyRoundInt_zero]
  norm_num

/-! ## Request classification

`backend/core/data_processing/data_download.py`, `classify_request_type`.
`today` (the source's `datetime.now().date()`) is an explicit parameter. -/

inductive RequestType
  | historical
  | current
  | forecast
  deriving DecidableEq, Repr

/-- `classify_request_type(data_inicial, data_final)`:
forecast if `end > today`; else historical if `start <= today - 30`;
else current. -/
def classify_request_type (today start_date end_date : ℤ) : RequestType :=
  let threshold := today - 30
  if end_date > today then .forecast
  else if start_date ≤ threshold then .historical
  else .current

/-- C2: `classify_request_type` is total on ordered date pairs, returning
exactly one of the three classes: `forecast` iff `end > today`, otherwise
`historical` iff `start <= today - 30`, otherwise `current`. -/
theorem classify_request_type_total_partition (today s e : ℤ) (h : s ≤ e) :
    (classify_request_type today s e = .forecast ∨
      classify_request_type today s e = .historical ∨
      classify_request_type today s e = .current) ∧
    (classify_request_type today s e = .forecast ↔ today < e) ∧
    (e ≤ today → (classify_request_type today s e = .historical ↔ s ≤ today - 30)) ∧
    (e ≤ today → (classify_request_type today s e = .current ↔ today - 30 < s)) := by
  simp only [classify_request_type]
  split_ifs with h1 h2 <;> refine ⟨by tauto, ?_, ?_, ?_⟩ <;> simp_all <;> omega

/-- Closed instance of `classify_request_type_total_partition` at a concrete
ordered date pair. -/
theorem classify_request_type_total_partition_witness :
    (classify_request_type 20000 19950 19990 = .forecast ∨
      classify_request_type 20000 19950 19990 = .historical ∨
      classify_request_type 20000 19950 19990 = .current) ∧
    (classify_request_type 20000 19950 19990 = .forecast ↔ (20000 : ℤ) < 19990) ∧
    ((19990 : ℤ) ≤ 20000 →
      (classify_request_type 20000 19950 19990 = .historical ↔ (19950 : ℤ) ≤ 20000 - 30)) ∧
    ((19990 : ℤ) ≤ 20000 →
      (classify_request_type 20000 19950 19990 = .current ↔ (20000 : ℤ) - 30 < 19950)) :=
  classify_request_type_total_partition 20000 19950 19990 (by decide)

/-! ## Source catalog and availability resolver

`backend/api/services/climate_source_availability.py`,
`ClimateSourceAvailability`.  Coordinates are `ℚ`, dates are day numbers
(`ℤ`); `date1990` stands for the absolute date `1990-01-01`, and `today` is
the explicit clock parameter (`datetime.now().date()` in the source). -/

inductive SourceId
  | nasa_power
  | openmeteo_archive
  | openmeteo_forecast
  | met_norway
  | nws_forecast
  | nws_stations
  deriving DecidableEq, Repr, BEq

inductive ApiType
  | historical
  | forecast
  | realtime
  deriving DecidableEq, Repr, BEq

inductive Coverage
  | global
  | usa
  deriving DecidableEq, Repr, BEq

/-- `data_type` argument of `get_available_sources`
(`Literal["historical", "forecast"]`). -/
inductive DataType
  | historical
  | forecast
  deriving DecidableEq, Repr, BEq

/-- Day number of the absolute date 1990-01-01 (epoch 1970-01-01:
20 years with 5 leap days).  The exact epoch is irrelevant;
only offsets from `today` and this constant are ever compared. -/
def date1990 : ℤ := 7305

/-- One entry of `ClimateSourceAvailability.API_LIMITS`.  Historical sources
carry an absolute `start_date`; forecast/realtime sources carry a
`start_date_offset` from today.  (In the Python dict the unused key is simply
absent; here it is `none`.) -/
structure ApiLimitEntry where
  type : ApiType
  coverage : Coverage
  start_date : Option ℤ
  start_date_offset : Option ℤ
  end_date_offset : ℤ
  deriving DecidableEq, Repr

/-- `ClimateSourceAvailability.API_LIMITS`. -/
def API_LIMITS : SourceId → ApiLimitEntry
  | .nasa_power =>
      { type := .historical, coverage := .global,
        start_date := some date1990, start_date_offset := none,
        end_date_offset := -2 }
  | .openmeteo_archive =>
      { type := .historical, coverage := .global,
        start_date := some date1990, start_date_offset := none,
        end_date_offset := -2 }
  | .openmeteo_forecast =>
      { type := .forecast, coverage := .global,
        start_date := none, start_date_offset := some (-30),
        end_date_offset := 5 }
  | .met_norway =>
      { type := .forecast, coverage := .global,
        start_date := none, start_date_offset := some 0,
        end_date_offset := 5 }
  | .nws_forecast =>
      { type := .forecast, coverage := .usa,
        start_date := none, start_date_offset := some 0,
        end_date_offset := 5 }
  | .nws_stations =>
      { type := .realtime, coverage := .usa,
        start_date := none, start_date_offset := some (-1),
        end_date_offset := 0 }

/-- `ClimateSourceAvailability.is_in_usa` (USA continental bounding box). -/
def is_in_usa (lat lon : ℚ) : Bool :=
  decide (-125 ≤ lon) && decide (lon ≤ -66) && decide (24 ≤ lat) && decide (lat ≤ 49)

/-- `ClimateSourceAvailability.is_in_nordic` (Nordic bounding box). -/
def is_in_nordic (lat lon : ℚ) : Bool :=
  decide (4 ≤ lon) && decide (lon ≤ 31) && decide (54 ≤ lat) && decide (lat ≤ 71.5)

/-- Per-source verdict produced by `get_available_sources`. -/
structure Verdict where
  available : Bool
  vars : List String
  type : ApiType
  coverage : Coverage
  reason : List String
  deriving DecidableEq, Repr

/-- Step 1 of `get_available_sources`: geographic coverage check. -/
def geoOk (limits : ApiLimitEntry) (inUsa : Bool) : Bool :=
  !(limits.coverage == Coverage.usa && !inUsa)

/-- Step 2 of `get_available_sources`: request-type compatibility.
Historical mode accepts only historical sources; forecast mode rejects a
historical source unless the whole window is in the past (`end < today`). -/
def typeOk (dt : DataType) (apiType : ApiType) (today e : ℤ) : Bool :=
  match dt with
  | .historical => apiType == ApiType.historical
  | .forecast =>
      match apiType with
      | .historical => decide (e < today)
      | _ => true

/-- Step 3 of `get_available_sources`: resolved temporal window check.
Historical sources use the absolute `start_date` and `today +
end_date_offset`; forecast/realtime sources use offsets from today.
(`getD 0` mirrors a dict lookup that cannot fail on the actual table.) -/
def windowOk (limits : ApiLimitEntry) (today s e : ℤ) : Bool :=
  match limits.type with
  | .historical =>
      decide (limits.start_date.getD 0 ≤ s) &&
      decide (e ≤ today + limits.end_date_offset)
  | _ =>
      decide (today + limits.start_date_offset.getD 0 ≤ s) &&
      decide (e ≤ today + limits.end_date_offset)

/-- Step 4 of `get_available_sources`: variable set for an available source
(`met_norway` reports precipitation only inside the Nordic box). -/
def sourceVariables (api : SourceId) (inNordic : Bool) : List String :=
  match api with
  | .met_norway =>
      if inNordic then
        ["air_temperature", "relative_humidity", "wind_speed",
         "precipitation_amount"]
      else
        ["air_temperature", "relative_humidity", "wind_speed"]
  | _ => ["all"]

/-- Body of the `for api_name, limits in cls.API_LIMITS.items()` loop of
`ClimateSourceAvailability.get_available_sources`: evaluates one source.
The mutable `available` flag of the source is compiled to the conjunction of
the three checks (it is set to `False` and never reset); the `reason` list is
accumulated under the same guards as in the source. -/
def evalSource (today s e : ℤ) (lat lon : ℚ) (dt : DataType)
    (api : SourceId) : Verdict :=
  let limits := API_LIMITS api
  let inUsa := is_in_usa lat lon
  let inNordic := is_in_nordic lat lon
  let a1 := geoOk limits inUsa
  let a2 := typeOk dt limits.type today e
  let a3 := windowOk limits today s e
  let available := a1 && a2 && a3
  let r1 : List String := if a1 then [] else ["Não disponível fora dos EUA"]
  let r2 : List String :=
    match dt with
    | .historical =>
        if limits.type == ApiType.historical then [] else ["Não é fonte histórica"]
    | .forecast =>
        if limits.type == ApiType.historical && !decide (e < today) then
          ["Fonte histórica não cobre período futuro"]
        else []
  let r3 : List String :=
    if a1 && a2 then
      (if windowOk limits today s e then [] else ["Janela temporal incompatível"])
    else []
  let r4 : List String :=
    if available then
      (match api with
       | .met_norway =>
           if inNordic then ["Região Nordic: todas as variáveis"]
           else ["Fora Nordic: sem precipitation_amount"]
       | _ => ["Todas as variáveis disponíveis"])
    else []
  { available := available
    vars := if available then sourceVariables api inNordic else []
    type := limits.type
    coverage := limits.coverage
    reason := r1 ++ r2 ++ r3 ++ r4 }

/-- Iteration order of `API_LIMITS.items()`. -/
def sourceOrder : List SourceId :=
  [.nasa_power, .openmeteo_archive, .openmeteo_forecast,
   .met_norway, .nws_forecast, .nws_stations]

/-- `ClimateSourceAvailability.get_available_sources`: verdict map over the
catalog. -/
def get_available_sources (today s e : ℤ) (lat lon : ℚ) (dt : DataType) :
    List (SourceId × Verdict) :=
  sourceOrder.map (fun api => (api, evalSource today s e lat lon dt api))

/-- `ClimateSourceAvailability.get_compatible_sources_list`. -/
def get_compatible_sources_list (today s e : ℤ) (lat lon : ℚ) (dt : DataType) :
    List SourceId :=
  ((get_available_sources today s e lat lon dt).filter
    (fun p => p.2.available)).map (fun p => p.1)

/-- The source's resolved window start for a given `today`, as described by
the claim: the absolute 1990-01-01 start for historical sources and
`today + start_date_offset` for forecast/realtime sources. -/
def resolvedStart (api : SourceId) (today : ℤ) : ℤ :=
  match (API_LIMITS api).type with
  | .historical => (API_LIMITS api).start_date.getD 0
  | _ => today + (API_LIMITS api).start_date_offset.getD 0

/-- The source's resolved window end for a given `today`:
`today + end_date_offset`. -/
def resolvedEnd (api : SourceId) (today : ℤ) : ℤ :=
  today + (API_LIMITS api).end_date_offset

/-- If a source's verdict is available, its resolved temporal window check
passed. -/
theorem evalSource_available_window (today s e : ℤ) (lat lon : ℚ)
    (dt : DataType) (api : SourceId)
    (hav : (evalSource today s e lat lon dt api).available = true) :
    resolvedStart api today ≤ s ∧ e ≤ resolvedEnd api today := by
  have h3 : windowOk (API_LIMITS api) today s e = true := by
    simp only [evalSource, Bool.and_eq_true] at hav
    exact hav.2
  cases api <;>
    simp only [windowOk, API_LIMITS, resolvedStart, resolvedEnd, Option.getD,
      Bool.and_eq_true, decide_eq_true_eq] at h3 ⊢ <;>
    omega

/-- C3: whenever `get_available_sources` marks a source available, the
requested window lies inside that source's resolved bound for `today`
(absolute 1990-01-01 start and `today + end_date_offset` for historical
sources; `today + start_date_offset` and `today + end_date_offset` for
forecast/realtime sources). -/
theorem get_available_sources_window_sound (today s e : ℤ) (lat lon : ℚ)
    (dt : DataType) (p : SourceId × Verdict)
    (hp : p ∈ get_available_sources today s e lat lon dt)
    (hav : p.2.available = true) :
    resolvedStart p.1 today ≤ s ∧ e ≤ resolvedEnd p.1 today := by
  simp only [get_available_sources, List.mem_map] at hp
  obtain ⟨api, -, rfl⟩ := hp
  exact evalSource_available_window today s e lat lon dt api hav

/-- Closed instance of `get_available_sources_window_sound`:
`nasa_power`, available for a past window, satisfies its resolved bound. -/
theorem get_available_sources_window_sound_witness :
    resolvedStart
        (SourceId.nasa_power,
          evalSource 20000 19000 19990 0 0 DataType.historical
            SourceId.nasa_power).1 20000 ≤ 19000 ∧
    (19990 : ℤ) ≤ resolvedEnd
        (SourceId.nasa_power,
          evalSource 20000 19000 19990 0 0 DataType.historical
            SourceId.nasa_power).1 20000 :=
  get_available_sources_window_sound 20000 19000 19990 0 0 DataType.historical
    _ (by simp [get_available_sources, sourceOrder]) (by decide)

/-- C4 counterexample: with `today = 20000`, the window
`[today - 28, today]` starts before `today - 25`, yet
`get_available_sources` marks `openmeteo_forecast` available (its
`API_LIMITS` start offset is `-30`, not `-25`). -/
theorem openmeteo_forecast_window_counterexample :
    ((19972 : ℤ) < 20000 - 25) ∧
    (SourceId.openmeteo_forecast,
        evalSource 20000 19972 20000 0 0 DataType.forecast
          SourceId.openmeteo_forecast)
      ∈ get_available_sources 20000 19972 20000 0 0 DataType.forecast ∧
    (evalSource 20000 19972 20000 0 0 DataType.forecast
        SourceId.openmeteo_forecast).available = true := by
  refine ⟨by decide, by simp [get_available_sources, sourceOrder], by decide⟩

/-! ## Anomaly detection

`backend/core/eto_calculation/eto_services.py`,
`EToCalculationService.detect_anomalies`. -/

/-- The optional `{mean, std_dev}` historical-normal dict; `none` fields model
keys falling back to `.get("mean", 0)` / `.get("std_dev", 1)`. -/
structure HistoricalNormal where
  mean : Option ℚ
  std_dev : Option ℚ
  deriving DecidableEq, Repr

/-- Verdict returned by `detect_anomalies`. -/
structure AnomalyVerdict where
  is_anomaly : Bool
  z_score : Option ℚ
  deviation_percent : Option ℚ
  deriving DecidableEq, Repr

/-- `EToCalculationService.detect_anomalies`: a `none` normal (Python
`None`/empty dict, both falsy) yields `(False, None, None)`; a zero mean or
std yields `(False, 0, 0)`; otherwise the z-score/deviation verdict, with the
returned scores rounded as in the source. -/
def detect_anomalies (et0 : ℚ) (historical_normal : Option HistoricalNormal) :
    AnomalyVerdict :=
  match historical_normal with
  | none => { is_anomaly := false, z_score := none, deviation_percent := none }
  | some hn =>
      let mean := hn.mean.getD 0
      let std := hn.std_dev.getD 1
      if std = 0 ∨ mean = 0 then
        { is_anomaly := false, z_score := some 0, deviation_percent := some 0 }
      else
        let z_score := (et0 - mean) / std
        let is_anomaly := decide (|z_score| > 2.5)
        let deviation_percent := (et0 - mean) / mean * 100
        { is_anomaly := is_anomaly
          z_score := some (pyRound 2 z_score)
          deviation_percent := some (pyRound 1 deviation_percent) }

/-- C8: `detect_anomalies` matches its reference definition: with nonzero
mean and std it returns `z = (et0 - mean)/std_dev` (rounded to 2 decimals as
returned), `is_anomaly = (|z| > 2.5)` on the unrounded z, and
`deviation_percent = (et0 - mean)/mean * 100` (rounded to 1 decimal); the
spec example `detect_anomalies(4.2, {mean: 3.8, std_dev: 0.6})` gives
`(False, 0.67, 10.5)`; and the degenerate cases resolve to the non-anomalous
zeroed verdicts without raising. -/
theorem detect_anomalies_reference :
    (∀ (et0 : ℚ) (hn : HistoricalNormal),
      hn.mean.getD 0 ≠ 0 → hn.std_dev.getD 1 ≠ 0 →
      detect_anomalies et0 (some hn) =
        { is_anomaly :=
            decide (|(et0 - hn.mean.getD 0) / hn.std_dev.getD 1| > 2.5)
          z_score :=
            some (pyRound 2 ((et0 - hn.mean.getD 0) / hn.std_dev.getD 1))
          deviation_percent :=
            some (pyRound 1 ((et0 - hn.mean.getD 0) / hn.mean.getD 0 * 100)) }) ∧
    (detect_anomalies 4.2 (some { mean := some 3.8, std_dev := some 0.6 }) =
      { is_anomaly := false, z_score := some 0.67,
        deviation_percent := some 10.5 }) ∧
    (∀ et0 : ℚ, detect_anomalies et0 none =
      { is_anomaly := false, z_score := none, deviation_percent := none }) ∧
    (∀ (et0 : ℚ) (hn : HistoricalNormal),
      hn.mean.getD 0 = 0 ∨ hn.std_dev.getD 1 = 0 →
      detect_anomalies et0 (some hn) =
        { is_anomaly := false, z_score := some 0,
          deviation_percent := some 0 }) := by
  have hgen : ∀ (et0 : ℚ) (hn : HistoricalNormal),
      hn.mean.getD 0 ≠ 0 → hn.std_dev.getD 1 ≠ 0 →
      detect_anomalies et0 (some hn) =
        { is_anomaly :=
            decide (|(et0 - hn.mean.getD 0) / hn.std_dev.getD 1| > 2.5)
          z_score :=
            some (pyRound 2 ((et0 - hn.mean.getD 0) / hn.std_dev.getD 1))
          deviation_percent :=
            some (pyRound 1 ((et0 - hn.mean.getD 0) / hn.mean.getD 0 * 100)) } := by
    intro et0 hn hm hs
    simp only [detect_anomalies]
    rw [if_neg (by tauto)]
  refine ⟨hgen, ?_, fun _ => rfl, ?_⟩
  · rw [hgen 4.2 { mean := some 3.8, std_dev := some 0.6 }
      (by norm_num) (by norm_num)]
    simp only [Option.getD_some, AnomalyVerdict.mk.injEq, Option.some.injEq]
    refine ⟨?_, ?_, ?_⟩
    · rw [decide_eq_false_iff_not, show ((4.2 : ℚ) - 3.8) / 0.6 = 2/3 by norm_num,
        abs_of_nonneg (by norm_num)]
      norm_num
    · norm_num [pyRound, pyRoundInt, Int.fract]
    · norm_num [pyRound, pyRoundInt, Int.fract]
  · intro et0 hn hms
    simp only [detect_anomalies]
    rw [if_pos (by tauto)]

/-- Closed instance of `detect_anomalies_reference` at a concrete nonzero
normal. -/
theorem detect_anomalies_reference_witness :
    detect_anomalies 5 (some { mean := some 3, std_dev := some 2 }) =
      { is_anomaly := false, z_score := some 1,
        deviation_percent := some (667/10) } := by
  have h := detect_anomalies_reference.1 5 { mean := some 3, std_dev := some 2 }
    (by norm_num) (by norm_num)
  rw [h]
  simp only [Option.getD_some, AnomalyVerdict.mk.injEq, Option.some.injEq]
  refine ⟨?_, ?_, ?_⟩
  · rw [decide_eq_false_iff_not, show ((5 : ℚ) - 3) / 2 = 1 by norm_num,
      abs_of_nonneg (by norm_num)]
    norm_num
  · norm_num [pyRound, pyRoundInt, Int.fract]
  · norm_num [pyRound, pyRoundInt, Int.fract]

/-! ## Series summary

`backend/core/eto_calculation/eto_services.py`,
`EToProcessingService._summarize_series`. -/

/-- One element of `et0_series` as assembled in `process_location`. -/
structure DailySeriesEntry where
  date : String
  et0_mm_day : ℚ
  quality : String
  anomaly : AnomalyVerdict
  deriving DecidableEq, Repr

/-- The summary dict produced for a non-empty series. -/
structure SeriesSummary where
  total_days : ℕ
  et0_total_mm : ℚ
  et0_mean_mm_day : ℚ
  et0_max_mm_day : ℚ
  et0_min_mm_day : ℚ
  anomaly_count : ℕ
  deriving DecidableEq, Repr

/-- Python `max(values)` on a non-empty list (the empty case is unreachable
behind the emptiness guard and is given a junk value). -/
def pyListMax : List ℚ → ℚ
  | [] => 0
  | x :: xs => xs.foldl max x

/-- Python `min(values)` on a non-empty list. -/
def pyListMin : List ℚ → ℚ
  | [] => 0
  | x :: xs => xs.foldl min x

/-- `EToProcessingService._summarize_series`: the empty dict (here `none`)
for an empty series, else the statistics dict. -/
def _summarize_series (et0_series : List DailySeriesEntry) :
    Option SeriesSummary :=
  match et0_series with
  | [] => none
  | _ =>
      let values := et0_series.map (·.et0_mm_day)
      some
        { total_days := et0_series.length
          et0_total_mm := pyRound 1 values.sum
          et0_mean_mm_day := pyRound 2 (values.sum / (values.length : ℚ))
          et0_max_mm_day := pyRound 2 (pyListMax values)
          et0_min_mm_day := pyRound 2 (pyListMin values)
          anomaly_count :=
            (et0_series.countP (fun d => d.anomaly.is_anomaly)) }

theorem foldl_max_le_of_all {l : List ℚ} {a b : ℚ} (ha : a ≤ b)
    (h : ∀ x ∈ l, x ≤ b) : l.foldl max a ≤ b := by
  induction l generalizing a with
  | nil => simpa using ha
  | cons y ys ih =>
      simp only [List.foldl_cons]
      exact ih (max_le ha (h y (by simp)))
        (fun x hx => h x (by simp [hx]))

theorem le_foldl_max_init (l : List ℚ) (a : ℚ) : a ≤ l.foldl max a := by
  induction l generalizing a with
  | nil => simp
  | cons y ys ih => exact le_trans (le_max_left a y) (ih (max a y))

theorem mem_le_foldl_max {l : List ℚ} {x : ℚ} (a : ℚ) (hx : x ∈ l) :
    x ≤ l.foldl max a := by
  induction l generalizing a with
  | nil => simp at hx
  | cons y ys ih =>
      rcases List.mem_cons.mp hx with rfl | hmem
      · exact le_trans (le_max_right a x) (le_foldl_max_init ys (max a x))
      · exact ih (max a y) hmem

theorem mem_le_pyListMax {l : List ℚ} {x : ℚ} (hx : x ∈ l) : x ≤ pyListMax l := by
  cases l with
  | nil => simp at hx
  | cons y ys =>
      rcases List.mem_cons.mp hx with rfl | hmem
      · exact le_foldl_max_init ys x
      · exact mem_le_foldl_max y hmem

theorem foldl_min_ge_of_all {l : List ℚ} {a b : ℚ} (ha : b ≤ a)
    (h : ∀ x ∈ l, b ≤ x) : b ≤ l.foldl min a := by
  induction l generalizing a with
  | nil => simpa using ha
  | cons y ys ih =>
      simp only [List.foldl_cons]
      exact ih (le_min ha (h y (by simp)))
        (fun x hx => h x (by simp [hx]))

theorem foldl_min_le_init (l : List ℚ) (a : ℚ) : l.foldl min a ≤ a := by
  induction l generalizing a with
  | nil => simp
  | cons y ys ih => exact le_trans (ih (min a y)) (min_le_left a y)

theorem foldl_min_le_mem {l : List ℚ} {x : ℚ} (a : ℚ) (hx : x ∈ l) :
    l.foldl min a ≤ x := by
  induction l generalizing a with
  | nil => simp at hx
  | cons y ys ih =>
      rcases List.mem_cons.mp hx with rfl | hmem
      · exact le_trans (foldl_min_le_init ys (min a x)) (min_le_right a x)
      · exact ih (min a y) hmem

theorem pyListMin_le_mem {l : List ℚ} {x : ℚ} (hx : x ∈ l) : pyListMin l ≤ x := by
  cases l with
  | nil => simp at hx
  | cons y ys =>
      rcases List.mem_cons.mp hx with rfl | hmem
      · exact foldl_min_le_init ys x
      · exact foldl_min_le_mem y hmem

theorem mean_le_pyListMax {l : List ℚ} (hl : l ≠ []) :
    l.sum / (l.length : ℚ) ≤ pyListMax l := by
  have hlen : (0 : ℚ) < (l.length : ℚ) := by
    have := List.length_pos.mpr hl
    exact_mod_cast this
  rw [div_le_iff hlen]
  have := List.sum_le_card_nsmul l (pyListMax l)
    (fun x hx => mem_le_pyListMax hx)
  simpa [nsmul_eq_mul, mul_comm] using this

theorem pyListMin_le_mean {l : List ℚ} (hl : l ≠ []) :
    pyListMin l ≤ l.sum / (l.length : ℚ) := by
  have hlen : (0 : ℚ) < (l.length : ℚ) := by
    have := List.length_pos.mpr hl
    exact_mod_cast this
  rw [le_div_iff hlen]
  have := List.card_nsmul_le_sum l (pyListMin l)
    (fun x hx => pyListMin_le_mem hx)
  simpa [nsmul_eq_mul, mul_comm] using this

/-- C10: for a non-empty series the summary satisfies
`total_days = length`, `et0_min <= et0_mean <= et0_max`,
`anomaly_count <= total_days`, and `et0_total_mm` is the rounded-to-one-
decimal sum; the empty series yields the empty dict. -/
theorem summarize_series_invariants (l : List DailySeriesEntry) :
    (_summarize_series [] = none) ∧
    (l ≠ [] →
      ∃ summ, _summarize_series l = some summ ∧
        summ.total_days = l.length ∧
        summ.et0_min_mm_day ≤ summ.et0_mean_mm_day ∧
        summ.et0_mean_mm_day ≤ summ.et0_max_mm_day ∧
        summ.anomaly_count ≤ summ.total_days ∧
        summ.et0_total_mm = pyRound 1 (l.map (·.et0_mm_day)).sum) := by
  refine ⟨rfl, ?_⟩
  intro hl
  cases l with
  | nil => exact absurd rfl hl
  | cons d ds =>
      refine ⟨_, rfl, rfl, ?_, ?_, ?_, rfl⟩
      · exact pyRound_mono 2 (pyListMin_le_mean (by simp))
      · exact pyRound_mono 2 (mean_le_pyListMax (by simp))
      · simpa using
          List.countP_le_length (fun d : DailySeriesEntry => d.anomaly.is_anomaly)

/-- A concrete two-day series used to instantiate the summary invariants. -/
def sampleSeries : List DailySeriesEntry :=
  [{ date := "2024-09-01", et0_mm_day := 3, quality := "high",
     anomaly := { is_anomaly := false, z_score := none,
                  deviation_percent := none } },
   { date := "2024-09-02", et0_mm_day := 5, quality := "high",
     anomaly := { is_anomaly := true, z_score := some 3,
                  deviation_percent := some 40 } }]

/-- Closed instance of `summarize_series_invariants` on a concrete two-day
series. -/
theorem summarize_series_invariants_witness :
    ∃ summ,
      _summarize_series sampleSeries = some summ ∧
      summ.total_days = sampleSeries.length ∧
      summ.et0_min_mm_day ≤ summ.et0_mean_mm_day ∧
      summ.et0_mean_mm_day ≤ summ.et0_max_mm_day ∧
      summ.anomaly_count ≤ summ.total_days ∧
      summ.et0_total_mm = pyRound 1 (sampleSeries.map (·.et0_mm_day)).sum :=
  (summarize_series_invariants sampleSeries).2 (by simp [sampleSeries])

/-! ## Download coordinator

`backend/core/data_processing/data_download.py`, `download_weather_data`.

The coordinator depends on two external pieces:
* `ClimateSourceManager.get_available_sources_for_location`
  (`backend/api/services/climate_source_manager.py` is not among the
  sources), and
* the six provider sync adapters (network I/O).

Both are passed in as oracle parameters below.  Input normalisation
(lower-casing, comma-splitting, `YYYY-MM-DD` parsing, unknown source names)
is not modelled: `requested` is the already-normalised list of valid source
selectors, and dates are day numbers. -/

/-- A daily record as assembled from a provider: its date (the DataFrame
index) and an association list of column values, `none` standing for NaN. -/
structure WRow where
  date : ℤ
  vals : List (String × Option ℚ)
  deriving DecidableEq, Repr

/-- A provider DataFrame: a list of daily rows. -/
abbrev WeatherFrame := List WRow

/-- One element of the normalised `data_source` argument: a concrete source
or the pseudo-source `"data fusion"`. -/
inductive ReqSource
  | source (id : SourceId)
  | dataFusion
  deriving DecidableEq, Repr

/-- Modelled from the spec:
`ClimateSourceManager.get_available_sources_for_location` is code of this
repository that is not under the sources (only its caller is).  Per §4.1 the
availability resolver returns per-source availability for a coordinate; the
coordinator only consumes the resulting list of available source ids, which
is therefore an oracle input of this type. -/
def AvailabilityOracle : Type := List SourceId

/-- Modelled from the spec: the six provider clients (§4.4,
`WeatherSourceClient` contract) are external network code.  A fetch takes a
source and the (possibly adjusted) start/end dates and returns the daily
records, or `none` when the client fails, is out of coverage, or returns
nothing — all of which the coordinator degrades to "empty + warning". -/
def FetchOracle : Type := SourceId → ℤ → ℤ → Option WeatherFrame

/-- Lower-case identifier of each source. -/
def sourceName : SourceId → String
  | .nasa_power => "nasa_power"
  | .openmeteo_archive => "openmeteo_archive"
  | .openmeteo_forecast => "openmeteo_forecast"
  | .met_norway => "met_norway"
  | .nws_forecast => "nws_forecast"
  | .nws_stations => "nws_stations"

/-- The raising per-source date-window checks at the top of the download
loop (`data_download.py` lines 275-380). -/
def sourceWindowValidate (src : SourceId) (today s e : ℤ) :
    Except String Unit :=
  match src with
  | .nasa_power =>
      if s < date1990 then
        .error "NASA POWER: data inicial deve ser >= 1990-01-01"
      else .ok ()
  | .openmeteo_archive =>
      if s < date1990 then
        .error "Open-Meteo Archive: data inicial deve ser >= 1990-01-01"
      else .ok ()
  | .openmeteo_forecast =>
      if s < today - 25 then
        .error "Open-Meteo Forecast: data inicial deve ser >= hoje - 25 dias"
      else if e > today + 5 then
        .error "Open-Meteo Forecast: data final deve ser <= hoje + 5 dias"
      else .ok ()
  | .met_norway =>
      if s < today then
        .error "MET Norway: data inicial deve ser >= hoje (sem histórico)"
      else if e > today + 5 then
        .error "MET Norway: data final deve ser <= hoje + 5 dias"
      else .ok ()
  | .nws_forecast =>
      if s < today then
        .error "NWS Forecast: data inicial deve ser >= hoje (sem histórico)"
      else if e > today + 5 then
        .error "NWS Forecast: data final deve ser <= hoje + 5 dias"
      else .ok ()
  | .nws_stations =>
      if s < today - 1 then
        .error "NWS Stations: data inicial deve ser >= hoje - 1 dia"
      else if e > today then
        .error "NWS Stations: data final deve ser <= hoje"
      else .ok ()

/-- Truncation warnings emitted while validating a source.  NASA POWER warns
(twice: once in its validation branch, once after the generic re-adjustment)
when the requested end is in the future; Open-Meteo Archive warns when the
end exceeds `today - 2`.  Note that the Archive's truncated end date is then
overwritten by the generic `data_final_adjusted` assignment (lines 382-387),
which resets it to the requested end for every source but NASA POWER, so
only the Archive's warning survives. -/
def sourceTruncationWarnings (src : SourceId) (today e : ℤ) : List String :=
  match src with
  | .nasa_power =>
      (if e > today then
        ["NASA POWER: truncando para data atual (sem dados futuros)"] else []) ++
      (if min e today < e then
        ["NASA POWER data truncated as it does not provide future data."] else [])
  | .openmeteo_archive =>
      if e > today - 2 then
        ["Open-Meteo Archive: truncando para today - 2d (consolidação)"] else []
  | _ => []

/-- The end date actually passed to the provider fetch: `min(end, today)`
for NASA POWER (lines 382-387), the requested end for every other source. -/
def fetchEndDate (src : SourceId) (today e : ℤ) : ℤ :=
  match src with
  | .nasa_power => min e today
  | _ => e

/-- `weather_df.replace(-999.00, np.nan)`. -/
def replaceSentinels (df : WeatherFrame) : WeatherFrame :=
  df.map (fun r =>
    { r with vals := r.vals.map (fun cv =>
        (cv.1, if cv.2 = some (-999) then none else cv.2)) })

/-- A row whose values are all NaN. -/
def rowAllMissing (r : WRow) : Bool :=
  r.vals.all (fun cv => cv.2 = none)

/-- `weather_df.dropna(how="all", subset=weather_df.columns)`. -/
def dropAllMissing (df : WeatherFrame) : WeatherFrame :=
  df.filter (fun r => !(rowAllMissing r))

/-- `(weather_df.index.max() - weather_df.index.min()).days + 1`; the empty
frame (possible after `dropna`) is modelled as 0 days. -/
def daysReturned (df : WeatherFrame) : ℤ :=
  match df.map (·.date) with
  | [] => 0
  | d :: ds => (ds.foldl max d) - (ds.foldl min d) + 1

/-- Column set of a frame. -/
def frameColumns (df : WeatherFrame) : List String :=
  (df.map (fun r => r.vals.map (·.1))).foldl
    (fun acc cs => acc ++ cs.filter (fun c => !(acc.contains c))) []

/-- Per-column missing-percentage warnings: a column with more than 25%
missing values triggers a non-fatal imputation notice (the pretty
variable-name table is abstracted to the column name itself). -/
def missingWarnings (src : SourceId) (df : WeatherFrame) : List String :=
  (frameColumns df).filterMap (fun c =>
    let missing := (df.filter (fun r => (r.vals.lookup c).getD none = none)).length
    if 100 * missing > 25 * df.length then
      some (sourceName src ++ ": mais de 25% faltantes em " ++ c ++
        ". Será feita imputação.")
    else none)

/-- The MET Norway branch includes `precipitation_sum` in its records only
when the coordinate is inside the Nordic box
(`get_recommended_variables`). -/
def dropPrecipOutsideNordic (src : SourceId) (inNordic : Bool)
    (df : WeatherFrame) : WeatherFrame :=
  match src with
  | .met_norway =>
      if inNordic then df
      else df.map (fun r =>
        { r with vals := r.vals.filter (fun cv => cv.1 ≠ "precipitation_sum") })
  | _ => df

/-- The fetch at the adjusted dates and the post-fetch cleaning and warning
generation for one source (everything after the truncation warnings).  None
of it can fail: a client failure or an empty result only yields a
warning. -/
def fetchTail (fetch : FetchOracle) (today s e period : ℤ)
    (inNordic : Bool) (src : SourceId) :
    List String × Option WeatherFrame :=
  match fetch src s (fetchEndDate src today e) with
  | none =>
      ([sourceName src ++ ": erro ou nenhum dado"], none)
  | some df0 =>
      let ccby : List String :=
        match src with
        | .met_norway =>
            ["📌 Dados MET Norway: CC-BY 4.0 - Atribuição requerida"]
        | _ => []
      let df1 := dropPrecipOutsideNordic src inNordic df0
      if df1 = [] then
        (ccby ++ ["Nenhum dado obtido de " ++ sourceName src], none)
      else
        let df2 := dropAllMissing (replaceSentinels df1)
        let ws2 := ccby ++
          (if daysReturned df2 < period then
            [sourceName src ++ ": obtidos menos dias que os solicitados"]
           else [])
        (ws2 ++ missingWarnings src df2, some df2)

/-- Everything the loop does for a source after its (raising) window checks
passed: truncation warnings, then the fetch and the cleaning
(`fetchTail`). -/
def fetchAndClean (fetch : FetchOracle) (today s e period : ℤ)
    (inNordic : Bool) (src : SourceId) :
    List String × Option WeatherFrame :=
  let tail := fetchTail fetch today s e period inNordic src
  (sourceTruncationWarnings src today e ++ tail.1, tail.2)

/-- One iteration of the `for source in sources` loop: per-source window
validation (which raises and aborts the whole download), then
`fetchAndClean`. -/
def processSource (fetch : FetchOracle) (today s e period : ℤ)
    (inNordic : Bool) (src : SourceId) :
    Except String (List String × Option WeatherFrame) :=
  match sourceWindowValidate src today s e with
  | .error msg => .error msg
  | .ok _ => .ok (fetchAndClean fetch today s e period inNordic src)

/-- The candidate set the pseudo-source `"data fusion"` expands to, by
request type. -/
def possibleFusionSources : RequestType → List SourceId
  | .historical => [.nasa_power, .openmeteo_archive]
  | .current =>
      [.openmeteo_archive, .nasa_power, .met_norway, .nws_forecast,
       .openmeteo_forecast, .nws_stations]
  | .forecast => [.openmeteo_forecast, .met_norway, .nws_forecast]

/-- The raising pre-loop validations of `download_weather_data`: coordinate
checks, date order/period checks, request-type specific period checks, and
per-location availability of each concretely requested source.  Returns the
first error message raised, or `none` when all checks pass. -/
def preChecksError (availIds : AvailabilityOracle) (today s e : ℤ)
    (lat lon : ℚ) (requested : List ReqSource) : Option String :=
  if ¬(-90 ≤ lat ∧ lat ≤ 90) then
    some "Latitude deve estar entre -90 e 90 graus"
  else if ¬(-180 ≤ lon ∧ lon ≤ 180) then
    some "Longitude deve estar entre -180 e 180 graus"
  else if e < s then
    some "A data final deve ser posterior à data inicial"
  else
    let period := e - s + 1
    if period < 1 then
      some "O período deve ter pelo menos 1 dia"
    else
      let rt := classify_request_type today s e
      if (rt = .historical ∨ rt = .current) ∧ s > today then
        some "A data inicial não pode ser futura para dados históricos ou atuais"
      else if rt = .historical ∧ ¬(1 ≤ period ∧ period ≤ 90) then
        some "Dados históricos: período entre 1 e 90 dias"
      else if rt = .current ∧ ¬(7 ≤ period ∧ period ≤ 30) then
        some "Dados atuais: período entre 7 e 30 dias"
      else if rt = .forecast ∧ e > today + 5 then
        some "Dados forecast: período máximo até hoje + 5 dias"
      else if rt = .forecast ∧ s < today - 25 then
        some "Dados forecast: data inicial deve ser >= hoje - 25 dias"
      else if requested.any (fun r =>
          match r with
          | .source sid => !(availIds.contains sid)
          | .dataFusion => false) then
        some "Fonte não disponível para as coordenadas"
      else none

/-- The pre-loop phase of `download_weather_data`: the raising validations
(`preChecksError`), then the expansion of `"data fusion"` into the candidate
set or the availability filter over the concretely requested sources.
Returns the list of sources the download loop will process. -/
def selectSources (availIds : AvailabilityOracle) (today s e : ℤ)
    (lat lon : ℚ) (requested : List ReqSource) :
    Except String (List SourceId) :=
  match preChecksError availIds today s e lat lon requested with
  | some msg => .error msg
  | none =>
      let rt := classify_request_type today s e
      if ReqSource.dataFusion ∈ requested then
        let srcs := (possibleFusionSources rt).filter
          (fun src => availIds.contains src)
        if srcs = [] then
          .error "Nenhuma fonte disponível nas coordenadas"
        else .ok srcs
      else
        .ok (requested.filterMap (fun r =>
          match r with
          | .source sid => if availIds.contains sid then some sid else none
          | .dataFusion => none))

/-- The `for source in sources` loop over the selected sources, threading
the warning log and collecting contributed frames; a raising per-source
validation aborts the whole loop. -/
def processLoop (fetch : FetchOracle) (today s e period : ℤ)
    (inNordic : Bool) : List SourceId →
    Except String (List String × List WeatherFrame)
  | [] => .ok ([], [])
  | src :: rest =>
      match processSource fetch today s e period inNordic src with
      | .error msg => .error msg
      | .ok wsodf =>
          match processLoop fetch today s e period inNordic rest with
          | .error msg => .error msg
          | .ok wsdfs =>
              .ok (wsodf.1 ++ wsdfs.1, wsodf.2.toList ++ wsdfs.2)

/-- De-duplication by date keeping the first occurrence
(`~weather_data.index.duplicated(keep="first")`). -/
def dedupByDate (df : WeatherFrame) : WeatherFrame :=
  df.foldl (fun acc r =>
    if acc.any (fun r2 => r2.date = r.date) then acc else acc ++ [r]) []

/-- Final consolidation: error when no source contributed; a single frame is
returned as-is; several frames are concatenated and de-duplicated. -/
def consolidate (dfs : List WeatherFrame) : Except String WeatherFrame :=
  match dfs with
  | [] => .error "Nenhuma fonte forneceu dados válidos"
  | [df] => .ok df
  | _ => .ok (dedupByDate dfs.flatten)

/-- `download_weather_data(data_source, data_inicial, data_final, longitude,
latitude)`: the full coordinator, with the availability manager and the
provider clients as oracles. -/
def download_weather_data (availIds : AvailabilityOracle)
    (fetch : FetchOracle) (today : ℤ) (requested : List ReqSource)
    (s e : ℤ) (lon lat : ℚ) :
    Except String (WeatherFrame × List String) :=
  match selectSources availIds today s e lat lon requested with
  | .error msg => .error msg
  | .ok srcs =>
      let period := e - s + 1
      let inNordic := is_in_nordic lat lon
      match processLoop fetch today s e period inNordic srcs with
      | .error msg => .error msg
      | .ok (ws, dfs) =>
          match consolidate dfs with
          | .error msg => .error msg
          | .ok df => .ok (df, ws)

/-- Whether an `Except` result is an error (a raised exception). -/
def isError {ε α : Type*} : Except ε α → Bool
  | .error _ => true
  | .ok _ => false

theorem sourceWindowValidate_omf_error (today s e : ℤ)
    (h : s < today - 25 ∨ e > today + 5) :
    ∃ msg, sourceWindowValidate .openmeteo_forecast today s e =
      .error msg := by
  unfold sourceWindowValidate
  by_cases h1 : s < today - 25
  · exact ⟨_, by rw [if_pos h1]⟩
  · have h2 : e > today + 5 := by tauto
    exact ⟨_, by rw [if_neg h1, if_pos h2]⟩

theorem selectSources_single (availIds : AvailabilityOracle) (today s e : ℤ)
    (lat lon : ℚ) (sid : SourceId) (srcs : List SourceId)
    (h : selectSources availIds today s e lat lon [ReqSource.source sid] =
      .ok srcs) :
    srcs = [sid] ∨ srcs = [] := by
  unfold selectSources at h
  cases hpre : preChecksError availIds today s e lat lon
      [ReqSource.source sid] with
  | some msg => rw [hpre] at h; exact absurd h (by simp)
  | none =>
      rw [hpre] at h
      rw [if_neg (by simp)] at h
      rcases Except.ok.inj h with rfl
      by_cases hc : availIds.contains sid
      · left
        simp [hc]
      · right
        simp [hc]

/-- C4 (corrected): `download_weather_data` does reject `openmeteo_forecast`
requests whose window leaves `[today - 25, today + 5]`, but
`get_available_sources` resolves `openmeteo_forecast` over the wider window
`[today - 30, today + 5]` (its catalog start offset is `-30`): in forecast
mode the source is marked available exactly when
`today - 30 <= start ∧ end <= today + 5`. -/
theorem openmeteo_forecast_window_amended :
    (∀ (today s e : ℤ) (lat lon : ℚ),
      (evalSource today s e lat lon DataType.forecast
          SourceId.openmeteo_forecast).available = true ↔
        (today - 30 ≤ s ∧ e ≤ today + 5)) ∧
    (∀ (availIds : AvailabilityOracle) (fetch : FetchOracle)
        (today s e : ℤ) (lon lat : ℚ),
      s < today - 25 ∨ e > today + 5 →
      isError (download_weather_data availIds fetch today
        [ReqSource.source SourceId.openmeteo_forecast] s e lon lat) = true) := by
  constructor
  · intro today s e lat lon
    simp only [evalSource, geoOk, typeOk, windowOk, API_LIMITS, Option.getD,
      Bool.and_eq_true, decide_eq_true_eq]
    constructor
    · rintro ⟨⟨-, -⟩, h3⟩
      omega
    · intro h
      refine ⟨⟨rfl, by simp⟩, by omega⟩
  · intro availIds fetch today s e lon lat hdisj
    cases hsel : selectSources availIds today s e lat lon
        [ReqSource.source SourceId.openmeteo_forecast] with
    | error msg => simp [download_weather_data, hsel, isError]
    | ok srcs =>
        obtain ⟨msg, hval⟩ := sourceWindowValidate_omf_error today s e hdisj
        rcases selectSources_single availIds today s e lat lon _ srcs hsel
          with rfl | rfl
        · simp [download_weather_data, hsel, processLoop, processSource,
            hval, isError]
        · simp [download_weather_data, hsel, processLoop, consolidate,
            isError]

/-- Closed instance of `openmeteo_forecast_window_amended`: part one applied
at an in-window pair, part two at a request starting 28 days in the past. -/
theorem openmeteo_forecast_window_amended_witness :
    ((evalSource 20000 19972 20000 0 0 DataType.forecast
        SourceId.openmeteo_forecast).available = true ↔
      ((20000 : ℤ) - 30 ≤ 19972 ∧ (20000 : ℤ) ≤ 20000 + 5)) ∧
    isError (download_weather_data [SourceId.openmeteo_forecast]
      (fun _ _ _ => none) 20000
      [ReqSource.source SourceId.openmeteo_forecast] 19972 20000 0 0) =
      true :=
  ⟨openmeteo_forecast_window_amended.1 20000 19972 20000 0 0,
   openmeteo_forecast_window_amended.2 [SourceId.openmeteo_forecast]
     (fun _ _ _ => none) 20000 19972 20000 0 0 (by omega)⟩

/-- A concrete ten-day frame (one column, no missing values) used by the
closed download scenarios. -/
def demoFrame : WeatherFrame :=
  (List.range 10).map (fun i =>
    { date := 19990 + (i : ℤ), vals := [("temperature_2m_max", some 1)] })

/-- A fetch oracle returning `demoFrame` for every source and window. -/
def demoFetch : FetchOracle := fun _ _ _ => some demoFrame

/-- C5 counterexample: `today = 20000`, requested end `19999` is later than
the `nasa_power` window end `today - 2 = 19998`, yet `download_weather_data`
neither truncates (the client is called with end `19999`) nor warns: it
returns the full frame with an empty warning list. -/
theorem nasa_truncation_claim_counterexample :
    ((19999 : ℤ) > 20000 - 2) ∧
    fetchEndDate SourceId.nasa_power 20000 19999 = 19999 ∧
    download_weather_data [SourceId.nasa_power] demoFetch 20000
        [ReqSource.source SourceId.nasa_power] 19990 19999 0 0 =
      .ok (demoFrame, []) :=
  ⟨by decide, by decide, rfl⟩

/-- Every frame contributed by `fetchAndClean` carries the source's
truncation warnings as a prefix of its warning list. -/
theorem fetchAndClean_warnings_prefix (fetch : FetchOracle)
    (today s e period : ℤ) (inNordic : Bool) (src : SourceId) :
    ∃ rest, (fetchAndClean fetch today s e period inNordic src).1 =
      sourceTruncationWarnings src today e ++ rest :=
  ⟨(fetchTail fetch today s e period inNordic src).1, rfl⟩

/-- C5 (corrected): the `nasa_power` branch truncates a future end date to
`today` — not to the catalog window end `today - 2` — and appends both
truncation warnings without failing; an end date in `(today - 2, today]` is
fetched untruncated and produces no truncation warning at all. -/
theorem nasa_power_truncation_amended (fetch : FetchOracle)
    (today s period : ℤ) (inNordic : Bool) :
    (∀ e, date1990 ≤ s → today < e →
      processSource fetch today s e period inNordic SourceId.nasa_power =
        .ok (fetchAndClean fetch today s e period inNordic
          SourceId.nasa_power) ∧
      fetchEndDate SourceId.nasa_power today e = today ∧
      ∃ rest,
        (fetchAndClean fetch today s e period inNordic
            SourceId.nasa_power).1 =
          ["NASA POWER: truncando para data atual (sem dados futuros)",
           "NASA POWER data truncated as it does not provide future data."]
            ++ rest) ∧
    (∀ e, today - 2 < e → e ≤ today →
      fetchEndDate SourceId.nasa_power today e = e ∧
      sourceTruncationWarnings SourceId.nasa_power today e = []) := by
  constructor
  · intro e h1990 hfut
    have hmin : min e today = today := min_eq_right hfut.le
    have hwarn : sourceTruncationWarnings SourceId.nasa_power today e =
        ["NASA POWER: truncando para data atual (sem dados futuros)",
         "NASA POWER data truncated as it does not provide future data."] := by
      simp only [sourceTruncationWarnings]
      rw [hmin]
      rw [if_pos hfut, if_pos hfut]
      rfl
    refine ⟨?_, ?_, ?_⟩
    · simp only [processSource, sourceWindowValidate]
      rw [if_neg (by omega)]
    · simp only [fetchEndDate]
      exact hmin
    · obtain ⟨rest, hrest⟩ := fetchAndClean_warnings_prefix fetch today s e
        period inNordic SourceId.nasa_power
      exact ⟨rest, by rw [hrest, hwarn]⟩
  · intro e hlo hhi
    have hmin : min e today = e := min_eq_left hhi
    constructor
    · simp only [fetchEndDate]
      exact hmin
    · simp only [sourceTruncationWarnings]
      rw [hmin]
      rw [if_neg (by omega), if_neg (by omega)]
      rfl

/-- Closed instance of `nasa_power_truncation_amended`: with `today = 20000`
a request ending `20001` is truncated to `20000` with both warnings, and one
ending `19999` is fetched untruncated with no warning. -/
theorem nasa_power_truncation_amended_witness :
    (processSource (fun _ _ _ => none) 20000 19990 20001 7 false
        SourceId.nasa_power =
      .ok (fetchAndClean (fun _ _ _ => none) 20000 19990 20001 7 false
        SourceId.nasa_power) ∧
      fetchEndDate SourceId.nasa_power 20000 20001 = 20000 ∧
      ∃ rest,
        (fetchAndClean (fun _ _ _ => none) 20000 19990 20001 7 false
            SourceId.nasa_power).1 =
          ["NASA POWER: truncando para data atual (sem dados futuros)",
           "NASA POWER data truncated as it does not provide future data."]
            ++ rest) ∧
    (fetchEndDate SourceId.nasa_power 20000 19999 = 19999 ∧
      sourceTruncationWarnings SourceId.nasa_power 20000 19999 = []) :=
  ⟨(nasa_power_truncation_amended (fun _ _ _ => none) 20000 19990 7 false).1
      20001 (by decide) (by decide),
   (nasa_power_truncation_amended (fun _ _ _ => none) 20000 19990 7 false).2
      19999 (by decide) (by decide)⟩

/-- When every selected source passes its window checks, the download loop
cannot fail: it returns the concatenated warnings and the frames of the
sources that contributed data. -/
theorem processLoop_ok_of_valid (fetch : FetchOracle) (today s e period : ℤ)
    (inNordic : Bool) (srcs : List SourceId)
    (hval : ∀ src ∈ srcs, sourceWindowValidate src today s e = .ok ()) :
    processLoop fetch today s e period inNordic srcs =
      .ok (srcs.flatMap
            (fun src => (fetchAndClean fetch today s e period inNordic src).1),
          srcs.filterMap
            (fun src =>
              (fetchAndClean fetch today s e period inNordic src).2)) := by
  induction srcs with
  | nil => rfl
  | cons src rest ih =>
      have h1 : sourceWindowValidate src today s e = .ok () :=
        hval src (by simp)
      have h2 := ih (fun x hx => hval x (List.mem_cons_of_mem _ hx))
      simp only [processLoop, processSource, h1, h2, List.flatMap_cons,
        List.filterMap_cons]
      cases (fetchAndClean fetch today s e period inNordic src).2 <;> simp

/-- C9 (corrected): once the per-source window validations of the selected
sources all pass, `download_weather_data` fails exactly when no selected
source contributes any usable rows (client failures and empty or all-missing
results are only warned about); but a failed per-source window validation —
shown separately by the counterexample — aborts the whole request even when
another source has data. -/
theorem download_fails_iff_no_usable_rows
    (availIds : AvailabilityOracle) (fetch : FetchOracle) (today s e : ℤ)
    (lon lat : ℚ) (requested : List ReqSource) (srcs : List SourceId)
    (hsel : selectSources availIds today s e lat lon requested = .ok srcs)
    (hval : ∀ src ∈ srcs, sourceWindowValidate src today s e = .ok ()) :
    isError (download_weather_data availIds fetch today requested s e lon lat)
        = true ↔
      ∀ src ∈ srcs,
        (fetchAndClean fetch today s e (e - s + 1)
          (is_in_nordic lat lon) src).2 = none := by
  unfold download_weather_data
  simp only [hsel]
  rw [processLoop_ok_of_valid fetch today s e (e - s + 1)
    (is_in_nordic lat lon) srcs hval]
  cases hdfs : srcs.filterMap
      (fun src => (fetchAndClean fetch today s e (e - s + 1)
        (is_in_nordic lat lon) src).2) with
  | nil =>
      simp only [consolidate, isError]
      constructor
      · intro _
        exact List.filterMap_eq_nil_iff.mp hdfs
      · intro _
        trivial
  | cons d rest =>
      have hmem : ∃ src ∈ srcs,
          (fetchAndClean fetch today s e (e - s + 1)
            (is_in_nordic lat lon) src).2 = some d := by
        have : d ∈ srcs.filterMap
            (fun src => (fetchAndClean fetch today s e (e - s + 1)
              (is_in_nordic lat lon) src).2) := by
          rw [hdfs]
          simp
        simpa using List.mem_filterMap.mp this
      constructor
      · intro habs
        exfalso
        cases rest with
        | nil => simp [consolidate, isError] at habs
        | cons d2 rest2 => simp [consolidate, isError] at habs
      · intro hall
        obtain ⟨src, hsrc, hsome⟩ := hmem
        rw [hall src hsrc] at hsome
        exact absurd hsome (by simp)

/-- Closed instance of `download_fails_iff_no_usable_rows` with one selected
source whose fetch fails. -/
theorem download_fails_iff_no_usable_rows_witness :
    isError (download_weather_data [SourceId.openmeteo_archive]
        (fun _ _ _ => none) 20000
        [ReqSource.source SourceId.openmeteo_archive] 19990 19999 0 0)
        = true ↔
      ∀ src ∈ [SourceId.openmeteo_archive],
        (fetchAndClean (fun _ _ _ => none) 20000 19990 19999
          ((19999 : ℤ) - 19990 + 1) (is_in_nordic 0 0) src).2 = none :=
  download_fails_iff_no_usable_rows [SourceId.openmeteo_archive]
    (fun _ _ _ => none) 20000 19990 19999 0 0
    [ReqSource.source SourceId.openmeteo_archive]
    [SourceId.openmeteo_archive] rfl
    (by intro src hsrc; rcases List.mem_singleton.mp hsrc with rfl; rfl)

/-- C9 counterexample: a two-source request (`openmeteo_archive`,
`met_norway`) where the archive has ten days of data but MET Norway's window
check fails (`start < today`): the whole download raises, although the same
request restricted to the archive alone succeeds with data. -/
theorem download_abort_counterexample :
    isError (download_weather_data
        [SourceId.openmeteo_archive, SourceId.met_norway] demoFetch 20000
        [ReqSource.source SourceId.openmeteo_archive,
         ReqSource.source SourceId.met_norway] 19990 19999 0 0) = true ∧
    download_weather_data [SourceId.openmeteo_archive, SourceId.met_norway]
        demoFetch 20000 [ReqSource.source SourceId.openmeteo_archive]
        19990 19999 0 0 =
      .ok (demoFrame,
        ["Open-Meteo Archive: truncando para today - 2d (consolidação)"]) :=
  ⟨rfl, rfl⟩

/-! ## FAO-56 Penman-Monteith calculator

`backend/core/eto_calculation/eto_services.py`, `EToCalculationService`.
Float arithmetic is idealised over `ℝ`; `math.exp/sin/cos/tan/acos` become
`Real.exp` etc.  Python exceptions inside `calculate_et0`'s `try` block
(division by an exact zero, `math.acos` domain errors, unparsable dates) are
collected in the predicate `calcDefined`; the `except` branch returns the
degraded error dict (`errorEToResult`). -/

/-- The parsed `date` field (`YYYY-MM-DD`). -/
structure PyDate where
  year : ℕ
  month : ℕ
  day : ℕ
  deriving DecidableEq, Repr

/-- Gregorian leap-year rule (as in Python's `datetime`). -/
def isLeapYear (y : ℕ) : Bool :=
  (y % 4 == 0 && !(y % 100 == 0)) || (y % 400 == 0)

/-- Length of a month. -/
def monthLength (leap : Bool) (m : ℕ) : ℕ :=
  match m with
  | 2 => if leap then 29 else 28
  | 4 | 6 | 9 | 11 => 30
  | _ => 31

/-- A date accepted by `datetime.strptime(date_str, "%Y-%m-%d")`. -/
def dateValid (d : PyDate) : Prop :=
  1 ≤ d.month ∧ d.month ≤ 12 ∧ 1 ≤ d.day ∧
    d.day ≤ monthLength (isLeapYear d.year) d.month

instance (d : PyDate) : Decidable (dateValid d) := by
  unfold dateValid
  infer_instance

/-- `_day_of_year`: `datetime.strptime(...).timetuple().tm_yday`. -/
def _day_of_year (d : PyDate) : ℕ :=
  ((List.range (d.month - 1)).map
    (fun i => monthLength (isLeapYear d.year) (i + 1))).sum + d.day

/-- The measurements dict of `calculate_et0` with its 11 required keys (the
key-presence check of `_validate_measurements` cannot fail here because the
keys are structure fields). -/
structure Measurements where
  T2M_MAX : ℝ
  T2M_MIN : ℝ
  T2M_MEAN : ℝ
  RH2M : ℝ
  WS2M : ℝ
  PRECTOTCORR : ℝ
  ALLSKY_SFC_SW_DWN : ℝ
  latitude : ℝ
  longitude : ℝ
  date : PyDate
  elevation_m : ℝ

/-- `EToCalculationService.ALBEDO`. -/
noncomputable def ALBEDO : ℝ := 0.23

/-- `EToCalculationService._validate_measurements`: the range checks in
source order, failing with the first violated message. -/
noncomputable def _validate_measurements (m : Measurements) :
    Except String Unit :=
  if ¬(-90 ≤ m.latitude ∧ m.latitude ≤ 90) then
    .error "Latitude deve estar entre -90 e 90"
  else if ¬(-180 ≤ m.longitude ∧ m.longitude ≤ 180) then
    .error "Longitude deve estar entre -180 e 180"
  else if m.elevation_m < -500 ∨ m.elevation_m > 9000 then
    .error "Elevação deve estar entre -500 e 9000 metros"
  else if ¬(0 ≤ m.RH2M ∧ m.RH2M ≤ 100) then
    .error "Umidade relativa deve estar entre 0 e 100%"
  else if m.WS2M < 0 then
    .error "Velocidade do vento não pode ser negativa"
  else if m.T2M_MAX < m.T2M_MIN then
    .error "T2M_MAX não pode ser menor que T2M_MIN"
  else .ok ()

/-- `_saturation_vapor_pressure` (FAO-56 Eq. 11). -/
noncomputable def _saturation_vapor_pressure (T : ℝ) : ℝ :=
  0.6108 * Real.exp ((17.27 * T) / (T + 237.3))

/-- `_vapor_pressure_slope` (FAO-56 Eq. 13). -/
noncomputable def _vapor_pressure_slope (T : ℝ) : ℝ :=
  (4098 * 0.6108 * Real.exp ((17.27 * T) / (T + 237.3))) / ((T + 237.3) ^ 2)

/-- `_psychrometric_constant` (the implementation's `0.000665 * P / 2.45`;
the unused `z` argument is kept from the source signature). -/
noncomputable def _psychrometric_constant (P z : ℝ) : ℝ :=
  0.000665 * P / 2.45

/-- `_solar_declination` (FAO-56 Eq. 24 as implemented):
`0.409 * sin(2*pi*(N-1)/365 - 1.39)`. -/
noncomputable def _solar_declination (N : ℕ) : ℝ :=
  0.409 * Real.sin (2 * Real.pi * ((N : ℝ) - 1) / 365.0 - 1.39)

/-- `_extraterrestrial_radiation` (FAO-56 Eq. 21 as implemented), clamped to
`>= 0`.  `Real.arccos` is total; the `math.acos` domain error of the source
is modelled by `calcDefined` below. -/
noncomputable def _extraterrestrial_radiation (lat : ℝ) (N : ℕ)
    (delta : ℝ) : ℝ :=
  let phi := lat * Real.pi / 180
  let dr := 1 + 0.033 * Real.cos (2 * Real.pi * (N : ℝ) / 365.0)
  let omega_s := Real.arccos (-Real.tan phi * Real.tan delta)
  let Ra := (24 * 60 / Real.pi) * 0.0820 * dr *
    (omega_s * Real.sin phi * Real.sin delta +
      Real.cos phi * Real.cos delta * Real.sin omega_s)
  max 0 Ra

/-- Atmospheric pressure from elevation (FAO-56 Eq. 7, computed inline in
`calculate_et0`). -/
noncomputable def atmPressure (z : ℝ) : ℝ :=
  101.3 * (((293 - 0.0065 * z) / 293) ^ (5.26 : ℝ))

/-- Mean saturation vapor pressure `es` (step 3a of `calculate_et0`). -/
noncomputable def esMean (m : Measurements) : ℝ :=
  (_saturation_vapor_pressure m.T2M_MAX +
    _saturation_vapor_pressure m.T2M_MIN) / 2

/-- Vapor pressure deficit `Vpd = es - ea` (steps 3b-3c). -/
noncomputable def vpd (m : Measurements) : ℝ :=
  esMean m - (m.RH2M / 100.0) * esMean m

/-- Net radiation approximation (step 3f):
`Rn = (1 - ALBEDO) * Rs - 0.23 * Rs`. -/
noncomputable def netRadiation (Rs : ℝ) : ℝ :=
  (1 - ALBEDO) * Rs - 0.23 * Rs

/-- The slope `Δ` at `T2M_MEAN` (step 3h). -/
noncomputable def slopeOf (m : Measurements) : ℝ :=
  _vapor_pressure_slope m.T2M_MEAN

/-- The psychrometric constant `γ` at the pressure derived from the
elevation (step 3i). -/
noncomputable def gammaOf (m : Measurements) : ℝ :=
  _psychrometric_constant (atmPressure m.elevation_m) m.elevation_m

/-- `Ra` for the measurement's latitude and date (steps 3d-3e). -/
noncomputable def RaOf (m : Measurements) : ℝ :=
  _extraterrestrial_radiation m.latitude (_day_of_year m.date)
    (_solar_declination (_day_of_year m.date))

/-- The `math.acos` argument inside `_extraterrestrial_radiation`. -/
noncomputable def raArg (m : Measurements) : ℝ :=
  -Real.tan (m.latitude * Real.pi / 180) *
    Real.tan (_solar_declination (_day_of_year m.date))

/-- The numerator of FAO-56 Eq. 6 as implemented (step 4), with `G = 0`,
`Cn = 900`, `Cd = 0.34`. -/
noncomputable def pmNumerator (m : Measurements) : ℝ :=
  0.408 * slopeOf m * (netRadiation m.ALLSKY_SFC_SW_DWN - 0) +
    gammaOf m * (900 / (m.T2M_MEAN + 273)) * m.WS2M * vpd m

/-- The denominator of FAO-56 Eq. 6 as implemented (step 4). -/
noncomputable def pmDenominator (m : Measurements) : ℝ :=
  slopeOf m + gammaOf m * (1 + 0.34 * m.WS2M)

/-- The conditions under which the Python computation raises no exception:
the date parses (`strptime`), no division by an exact zero in
`_saturation_vapor_pressure`/`_vapor_pressure_slope` (`T = -237.3`) or in the
wind term (`T2M_MEAN = -273`), and the `math.acos` argument lies in
`[-1, 1]`. -/
def calcDefined (m : Measurements) : Prop :=
  dateValid m.date ∧ m.T2M_MAX ≠ -237.3 ∧ m.T2M_MIN ≠ -237.3 ∧
    m.T2M_MEAN ≠ -237.3 ∧ m.T2M_MEAN ≠ -273 ∧ |raArg m| ≤ 1

inductive Quality
  | high
  | low
  deriving DecidableEq, Repr

/-- The `components` dict of a successful `calculate_et0` run (each entry
rounded as in the source). -/
structure EToComponents where
  Ra : ℝ
  Rn : ℝ
  slope : ℝ
  gamma : ℝ
  Vpd : ℝ

/-- The result dict of `calculate_et0`; `components = none` models the empty
components dict of the error branch, `error` the `"error"` key. -/
structure EToResult where
  et0_mm_day : ℝ
  quality : Quality
  method : String
  components : Option EToComponents
  error : Option String

/-- The `except` branch of `calculate_et0`: value 0, low quality, empty
components, and the exception message. -/
def errorEToResult (method msg : String) : EToResult :=
  { et0_mm_day := 0, quality := .low, method := method,
    components := none, error := some msg }

open scoped Classical

/-- The raw (pre-clamp, pre-round) Penman-Monteith value: `none` when the
computation raises (`calcDefined` fails) or when the denominator is zero
(the float result would be NaN). -/
noncomputable def rawPenman (m : Measurements) : Option ℝ :=
  if calcDefined m then
    if pmDenominator m = 0 then none
    else some (pmNumerator m / pmDenominator m)
  else none

/-- `EToCalculationService.calculate_et0`: validation, the FAO-56 chain,
the NaN guard, the quality sanity checks, and the clamped, rounded result;
any exception yields the degraded error dict. -/
noncomputable def calculate_et0 (m : Measurements) (method : String) :
    EToResult :=
  match _validate_measurements m with
  | .error msg => errorEToResult method msg
  | .ok _ =>
      if calcDefined m then
        let comps : EToComponents :=
          { Ra := pyRound 2 (RaOf m)
            Rn := pyRound 2 (netRadiation m.ALLSKY_SFC_SW_DWN)
            slope := pyRound 4 (slopeOf m)
            gamma := pyRound 4 (gammaOf m)
            Vpd := pyRound 2 (vpd m) }
        if pmDenominator m = 0 then
          -- `ET0 = nan`: the `isnan` sanity check sets quality low and
          -- coerces the value to 0 before clamping and rounding.
          { et0_mm_day := pyRound 2 (max 0 0), quality := .low,
            method := method, components := some comps, error := none }
        else
          let ET0 := pmNumerator m / pmDenominator m
          { et0_mm_day := pyRound 2 (max 0 ET0)
            quality := if ET0 < 0 ∨ ET0 > 15 then .low else .high
            method := method
            components := some comps
            error := none }
      else errorEToResult method "erro no cálculo de ETo"

theorem validate_update (m : Measurements) (r2 : ℝ) :
    _validate_measurements { m with ALLSKY_SFC_SW_DWN := r2 } =
      _validate_measurements m := rfl

theorem calcDefined_update (m : Measurements) (r2 : ℝ) :
    calcDefined { m with ALLSKY_SFC_SW_DWN := r2 } = calcDefined m := rfl

theorem pmDenominator_update (m : Measurements) (r2 : ℝ) :
    pmDenominator { m with ALLSKY_SFC_SW_DWN := r2 } = pmDenominator m := rfl

theorem pmNumerator_update (m : Measurements) (r2 : ℝ) :
    pmNumerator { m with ALLSKY_SFC_SW_DWN := r2 } =
      0.408 * slopeOf m * (netRadiation r2 - 0) +
        gammaOf m * (900 / (m.T2M_MEAN + 273)) * m.WS2M * vpd m := rfl

theorem rawPenman_update (m : Measurements) (r2 : ℝ) :
    rawPenman { m with ALLSKY_SFC_SW_DWN := r2 } =
      if calcDefined m then
        (if pmDenominator m = 0 then none
         else some ((0.408 * slopeOf m * (netRadiation r2 - 0) +
            gammaOf m * (900 / (m.T2M_MEAN + 273)) * m.WS2M * vpd m) /
            pmDenominator m))
      else none := rfl

/-- Characterisation of `calculate_et0` on inputs accepted by validation:
the returned value is the raw Penman-Monteith value (0 in the NaN/exception
cases) clamped to `>= 0` and rounded to 2 decimals, and quality is low
exactly when the raw value is missing (NaN/exception) or out of
`[0, 15]`. -/
theorem calculate_et0_char (m : Measurements) (mth : String)
    (hok : _validate_measurements m = .ok ()) :
    (calculate_et0 m mth).et0_mm_day =
      pyRound 2 (max 0 ((rawPenman m).getD 0)) ∧
    ((calculate_et0 m mth).quality = .low ↔
      (rawPenman m).elim True (fun v => v < 0 ∨ v > 15)) := by
  simp only [calculate_et0, rawPenman, hok]
  by_cases hdef : calcDefined m
  · rw [if_pos hdef, if_pos hdef]
    by_cases hden : pmDenominator m = 0
    · rw [if_pos hden, if_pos hden]
      exact ⟨rfl, by simp [Option.elim]⟩
    · rw [if_neg hden, if_neg hden]
      refine ⟨rfl, ?_⟩
      by_cases hq : pmNumerator m / pmDenominator m < 0 ∨
          pmNumerator m / pmDenominator m > 15
      · rw [if_pos hq]
        simpa [Option.elim] using hq
      · rw [if_neg hq]
        simpa [Option.elim] using hq
  · rw [if_neg hdef, if_neg hdef]
    refine ⟨?_, by simp [errorEToResult, Option.elim]⟩
    show (0 : ℝ) = pyRound 2 (max 0 (Option.getD none 0))
    rw [Option.getD_none, max_self, pyRound_zero]

theorem validate_ok_ranges (m : Measurements)
    (hok : _validate_measurements m = .ok ()) :
    (-90 ≤ m.latitude ∧ m.latitude ≤ 90) ∧
    (-180 ≤ m.longitude ∧ m.longitude ≤ 180) ∧
    (-500 ≤ m.elevation_m ∧ m.elevation_m ≤ 9000) ∧
    (0 ≤ m.RH2M ∧ m.RH2M ≤ 100) ∧ 0 ≤ m.WS2M ∧ m.T2M_MIN ≤ m.T2M_MAX := by
  unfold _validate_measurements at hok
  split_ifs at hok with h1 h2 h3 h4 h5 h6 <;>
    try exact Except.noConfusion hok
  push_neg at h1 h2 h3 h4 h5 h6
  exact ⟨h1, h2, ⟨h3.1, h3.2⟩, h4, h5, h6⟩

theorem slopeOf_pos (m : Measurements) (h : m.T2M_MEAN ≠ -237.3) :
    0 < slopeOf m := by
  unfold slopeOf _vapor_pressure_slope
  apply div_pos
  · positivity
  · have hne : m.T2M_MEAN + 237.3 ≠ 0 := fun h0 => h (by linarith)
    exact pow_two_pos_of_ne_zero hne

theorem gammaOf_pos (m : Measurements) (hz : m.elevation_m ≤ 9000) :
    0 < gammaOf m := by
  unfold gammaOf _psychrometric_constant atmPressure
  have hbase : (0 : ℝ) < (293 - 0.0065 * m.elevation_m) / 293 := by
    apply div_pos _ (by norm_num)
    nlinarith
  have hP := Real.rpow_pos_of_pos hbase (5.26 : ℝ)
  have h1 : (0 : ℝ) <
      101.3 * (((293 - 0.0065 * m.elevation_m) / 293) ^ (5.26 : ℝ)) := by
    nlinarith
  apply div_pos _ (by norm_num)
  nlinarith

theorem pmDenominator_pos (m : Measurements) (hT : m.T2M_MEAN ≠ -237.3)
    (hz : m.elevation_m ≤ 9000) (hu : 0 ≤ m.WS2M) : 0 < pmDenominator m := by
  unfold pmDenominator
  have h1 := slopeOf_pos m hT
  have h2 := gammaOf_pos m hz
  nlinarith

/-- The raw Penman-Monteith value (with 0 for the NaN/exception cases) is
monotone non-decreasing in the solar radiation input. -/
theorem rawPenman_mono_solar (m : Measurements) (r2 : ℝ)
    (hok : _validate_measurements m = .ok ())
    (hr : m.ALLSKY_SFC_SW_DWN ≤ r2) :
    (rawPenman m).getD 0 ≤
      (rawPenman { m with ALLSKY_SFC_SW_DWN := r2 }).getD 0 := by
  obtain ⟨-, -, ⟨-, hz⟩, -, hu, -⟩ := validate_ok_ranges m hok
  show (if calcDefined m then
      (if pmDenominator m = 0 then none
       else some (pmNumerator m / pmDenominator m))
    else none).getD 0 ≤
    (if calcDefined m then
      (if pmDenominator m = 0 then none
       else some ((0.408 * slopeOf m * (netRadiation r2 - 0) +
          gammaOf m * (900 / (m.T2M_MEAN + 273)) * m.WS2M * vpd m) /
          pmDenominator m))
    else none).getD 0
  split_ifs with hdef hden
  · exact le_refl _
  · simp only [Option.getD_some]
    have hdpos : 0 < pmDenominator m :=
      pmDenominator_pos m hdef.2.2.2.1 hz hu
    have hs := slopeOf_pos m hdef.2.2.2.1
    have hnum : pmNumerator m ≤
        0.408 * slopeOf m * (netRadiation r2 - 0) +
          gammaOf m * (900 / (m.T2M_MEAN + 273)) * m.WS2M * vpd m := by
      unfold pmNumerator netRadiation ALBEDO
      nlinarith
    exact div_le_div_of_nonneg_right hnum hdpos.le
  · exact le_refl _

/-- C1: for every measurements dict accepted by validation, `calculate_et0`
returns the raw Penman-Monteith value clamped to `>= 0` and rounded to 2
decimals, and `quality = "low"` exactly when the raw (pre-clamp) value is
negative, exceeds 15, or is not a number (the NaN/exception cases, where the
returned value is 0, are `rawPenman m = none`). -/
theorem calculate_et0_clamp_round_quality (m : Measurements) (mth : String)
    (hok : _validate_measurements m = .ok ()) :
    (calculate_et0 m mth).et0_mm_day =
      pyRound 2 (max 0 ((rawPenman m).getD 0)) ∧
    ((calculate_et0 m mth).quality = Quality.low ↔
      (rawPenman m).elim True (fun v => v < 0 ∨ v > 15)) :=
  calculate_et0_char m mth hok

/-- C6: increasing `ALLSKY_SFC_SW_DWN` while holding every other field fixed
never decreases `et0_mm_day`. -/
theorem calculate_et0_monotone_solar (m : Measurements) (r2 : ℝ)
    (mth : String) (hok : _validate_measurements m = .ok ())
    (hr : m.ALLSKY_SFC_SW_DWN ≤ r2) :
    (calculate_et0 m mth).et0_mm_day ≤
      (calculate_et0 { m with ALLSKY_SFC_SW_DWN := r2 } mth).et0_mm_day := by
  have h1 := (calculate_et0_char m mth hok).1
  have h2 := (calculate_et0_char { m with ALLSKY_SFC_SW_DWN := r2 } mth
    (by rw [validate_update]; exact hok)).1
  rw [h1, h2]
  exact pyRound_mono 2
    (max_le_max le_rfl (rawPenman_mono_solar m r2 hok hr))

/-- C7: a measurements dict whose only violated range check is
`T2M_MAX < T2M_MIN` makes `_validate_measurements` raise the error naming
that condition, and `calculate_et0` returns the degraded error dict carrying
that message — value 0, low quality, empty components — so no FAO-56
arithmetic result is produced. -/
theorem t2m_order_validation_error (m : Measurements) (mth : String)
    (hlat : -90 ≤ m.latitude ∧ m.latitude ≤ 90)
    (hlon : -180 ≤ m.longitude ∧ m.longitude ≤ 180)
    (helev : ¬(m.elevation_m < -500 ∨ m.elevation_m > 9000))
    (hrh : 0 ≤ m.RH2M ∧ m.RH2M ≤ 100)
    (hws : ¬(m.WS2M < 0))
    (htemp : m.T2M_MAX < m.T2M_MIN) :
    _validate_measurements m =
      .error "T2M_MAX não pode ser menor que T2M_MIN" ∧
    calculate_et0 m mth =
      errorEToResult mth "T2M_MAX não pode ser menor que T2M_MIN" := by
  have hv : _validate_measurements m =
      .error "T2M_MAX não pode ser menor que T2M_MIN" := by
    unfold _validate_measurements
    rw [if_neg (by tauto), if_neg (by tauto), if_neg helev,
      if_neg (by tauto), if_neg hws, if_pos htemp]
  exact ⟨hv, by simp only [calculate_et0, hv]⟩

/-- The spec's worked example input (§8):
`calculate_et0({T2M_MAX: 28.5, ..., date: "2024-09-15"})`. -/
noncomputable def mExample : Measurements :=
  { T2M_MAX := 28.5, T2M_MIN := 18.2, T2M_MEAN := 23.4, RH2M := 65,
    WS2M := 2.5, PRECTOTCORR := 5.2, ALLSKY_SFC_SW_DWN := 22.5,
    latitude := -15.7975, longitude := -48.0,
    date := { year := 2024, month := 9, day := 15 }, elevation_m := 1000 }

theorem mExample_validates : _validate_measurements mExample = .ok () := by
  simp only [_validate_measurements, mExample]
  norm_num

/-- Closed instance of `calculate_et0_clamp_round_quality` at the spec's
worked example. -/
theorem calculate_et0_clamp_round_quality_witness :
    (calculate_et0 mExample "pm").et0_mm_day =
      pyRound 2 (max 0 ((rawPenman mExample).getD 0)) ∧
    ((calculate_et0 mExample "pm").quality = Quality.low ↔
      (rawPenman mExample).elim True (fun v => v < 0 ∨ v > 15)) :=
  calculate_et0_clamp_round_quality mExample "pm" mExample_validates

/-- Closed instance of `calculate_et0_monotone_solar` at the spec's worked
example with the radiation raised from 22.5 to 25. -/
theorem calculate_et0_monotone_solar_witness :
    (calculate_et0 mExample "pm").et0_mm_day ≤
      (calculate_et0 { mExample with ALLSKY_SFC_SW_DWN := 25 }
        "pm").et0_mm_day :=
  calculate_et0_monotone_solar mExample 25 "pm" mExample_validates
    (by simp only [mExample]; norm_num)

/-- Closed instance of `t2m_order_validation_error`: the worked example with
its temperatures swapped fails validation with the `T2M_MAX` message and
yields the degraded error dict. -/
theorem t2m_order_validation_error_witness :
    _validate_measurements
        { mExample with T2M_MAX := 18.2, T2M_MIN := 28.5 } =
      .error "T2M_MAX não pode ser menor que T2M_MIN" ∧
    calculate_et0 { mExample with T2M_MAX := 18.2, T2M_MIN := 28.5 } "pm" =
      errorEToResult "pm" "T2M_MAX não pode ser menor que T2M_MIN" :=
  t2m_order_validation_error
    { mExample with T2M_MAX := 18.2, T2M_MIN := 28.5 } "pm"
    (by simp only [mExample]; norm_num)
    (by simp only [mExample]; norm_num)
    (by simp only [mExample]; norm_num)
    (by simp only [mExample]; norm_num)
    (by simp only [mExample]; norm_num)
    (by simp only [mExample]; norm_num)
